import Mathlib

/-!
Verification of the frame annotation and compositing pipeline of
src/22_instance_segmentation_ultralytics/instance_segmentation.py.

Frames are modelled as total functions from integer pixel coordinates to
3-channel natural-number pixel values (each channel held in 0..255 by the
operations). Rational numbers stand in for the floating-point scalars of
the source (mask probabilities, the mask alpha, confidences). External
OpenCV and NumPy collaborators (resize, getTextSize, the glyph rasterizer
of putText, the seeded random generator) are passed in as explicit
parameters of an Ext record, so every definition stays executable.
-/

namespace InstanceSeg

/-- One 3-channel pixel (B, G, R order in the source; the order is opaque here). -/
abbrev Pix := ℕ × ℕ × ℕ

/-- A frame: total function from integer coordinates to pixels. -/
abbrev Img := ℤ × ℤ → Pix

/-- A mask grid of probabilities, as produced by the model and by cv2.resize. -/
abbrev MaskGrid := ℤ × ℤ → ℚ

/-- saturate_cast to uint8 as cv2.addWeighted performs it on 8-bit frames:
round to the nearest integer, then clamp into 0..255. The tie behaviour of
cvRound (ties to even) is abstracted as round-half-up; no theorem below
depends on a tie. -/
def satRound (q : ℚ) : ℕ := (min 255 (max 0 (round q))).toNat

/-- Channelwise weighted sum with saturation, one pixel of cv2.addWeighted:
dst = saturate(src1*w1 + src2*w2 + gamma). -/
def satPix (a : Pix) (w1 : ℚ) (b : Pix) (w2 : ℚ) (γ : ℚ) : Pix :=
  (satRound (w1 * a.1 + w2 * b.1 + γ),
   satRound (w1 * a.2.1 + w2 * b.2.1 + γ),
   satRound (w1 * a.2.2 + w2 * b.2.2 + γ))

/-- cv2.addWeighted lifted to whole frames (source line 84-90 calls it with
weights 1 and mask_alpha and gamma 0). -/
def addWeighted (f : Img) (w1 : ℚ) (g : Img) (w2 : ℚ) (γ : ℚ) : Img :=
  fun p => satPix (f p) w1 (g p) w2 γ

/-- Source line 77: mask_binary = (resized mask > 0.5) as 0/1. -/
def maskBinary (rm : MaskGrid) : ℤ × ℤ → ℕ :=
  fun p => if 1/2 < rm p then 1 else 0

/-- Source lines 80-81: colored_mask is the class color inside the binary
mask and zero (transparent) outside. -/
def coloredMask (rm : MaskGrid) (c : Pix) : Img :=
  fun p => if maskBinary rm p = 1 then c else (0, 0, 0)

/-- Source lines 76-90: the mask-compositing step for one detection, given
the mask already resized to the frame size: threshold at 0.5, build the
colored overlay, blend with addWeighted(frame, 1, overlay, alpha, 0). -/
def compositeOne (frame : Img) (rm : MaskGrid) (c : Pix) (α : ℚ) : Img :=
  addWeighted frame 1 (coloredMask rm c) α 0

/-- The formula of the specification for one composited detection:
clamp(frame[p] + alpha*color, 0, 255) per channel, quantised to uint8 by
the same saturate-round as the code. -/
def clampAdd (a : Pix) (α : ℚ) (c : Pix) : Pix :=
  (satRound (a.1 + α * c.1), satRound (a.2.1 + α * c.2.1), satRound (a.2.2 + α * c.2.2))

/-- The formula of the specification for two overlapping detections:
clamp(frame[p] + alpha*C1 + alpha*C2, 0, 255) per channel, quantised once. -/
def clampAdd2 (a : Pix) (α : ℚ) (c1 c2 : Pix) : Pix :=
  (satRound (a.1 + α * c1.1 + α * c2.1),
   satRound (a.2.1 + α * c1.2.1 + α * c2.2.1),
   satRound (a.2.2 + α * c1.2.2 + α * c2.2.2))

/-- All channels of a pixel are legal uint8 values. -/
def pixLe255 (a : Pix) : Prop := a.1 ≤ 255 ∧ a.2.1 ≤ 255 ∧ a.2.2 ≤ 255

instance (a : Pix) : Decidable (pixLe255 a) := by
  unfold pixLe255; infer_instance

lemma satRound_natCast' (n : ℕ) : satRound (n : ℚ) = min 255 n := by
  unfold satRound
  rw [round_natCast]
  omega

lemma satRound_natCast (n : ℕ) (h : n ≤ 255) : satRound (n : ℚ) = n := by
  rw [satRound_natCast']
  omega

lemma satRound_nat_add (m b : ℕ) : satRound ((m : ℚ) + (b : ℚ)) = min 255 (m + b) := by
  have e : (m : ℚ) + (b : ℚ) = ((m + b : ℕ) : ℚ) := by push_cast; ring
  rw [e, satRound_natCast']

lemma coloredMask_covered (rm : MaskGrid) (c : Pix) (p : ℤ × ℤ) (h : 1/2 < rm p) :
    coloredMask rm c p = c := by
  simp only [coloredMask, maskBinary, if_pos h]
  rfl

lemma coloredMask_uncovered (rm : MaskGrid) (c : Pix) (p : ℤ × ℤ) (h : ¬ 1/2 < rm p) :
    coloredMask rm c p = (0, 0, 0) := by
  simp only [coloredMask, maskBinary, if_neg h]
  rfl

lemma compositeOne_covered (frame : Img) (rm : MaskGrid) (c : Pix) (α : ℚ) (p : ℤ × ℤ)
    (hcov : 1/2 < rm p) : compositeOne frame rm c α p = clampAdd (frame p) α c := by
  simp only [compositeOne, addWeighted, coloredMask_covered rm c p hcov, satPix, clampAdd]
  have e : ∀ x y : ℚ, 1 * x + α * y + 0 = x + α * y := by intro x y; ring
  rw [e, e, e]

lemma compositeOne_uncovered (frame : Img) (rm : MaskGrid) (c : Pix) (α : ℚ) (p : ℤ × ℤ)
    (hout : ¬ 1/2 < rm p) (hwf : pixLe255 (frame p)) :
    compositeOne frame rm c α p = frame p := by
  obtain ⟨h1, h2, h3⟩ := hwf
  simp only [compositeOne, addWeighted, coloredMask_uncovered rm c p hout, satPix]
  have e0 : ∀ x : ℚ, 1 * x + α * ((0:ℕ):ℚ) + 0 = x := by intro x; push_cast; ring
  rw [e0, e0, e0, satRound_natCast _ h1, satRound_natCast _ h2, satRound_natCast _ h3]

/-- C1: for every frame, alpha and single detection whose mask, after
resizing to the frame size and thresholding at 0.5, covers pixel p, the
compositing step produces clamp(frame[p] + alpha*color, 0, 255) per
channel, and every pixel outside the thresholded mask is left unchanged by
that compositing step. -/
theorem C1_single_detection_composite (frame : Img) (rm : MaskGrid) (c : Pix) (α : ℚ)
    (p : ℤ × ℤ) (hwf : pixLe255 (frame p)) :
    (1/2 < rm p → compositeOne frame rm c α p = clampAdd (frame p) α c) ∧
    (¬ 1/2 < rm p → compositeOne frame rm c α p = frame p) :=
  ⟨fun hcov => compositeOne_covered frame rm c α p hcov,
   fun hout => compositeOne_uncovered frame rm c α p hout hwf⟩

/-- C1 witness: a concrete covered pixel and a concrete uncovered pixel. -/
theorem C1_single_detection_composite_witness :
    compositeOne (fun _ => (0, 0, 0)) (fun q => if q = (0, 0) then 1 else 0) (200, 0, 0)
      (1/2) (0, 0) = (100, 0, 0) ∧
    compositeOne (fun _ => (0, 0, 0)) (fun q => if q = (0, 0) then 1 else 0) (200, 0, 0)
      (1/2) (3, 3) = (0, 0, 0) := by
  constructor
  · have h := C1_single_detection_composite (fun _ => (0, 0, 0))
      (fun q => if q = (0, 0) then 1 else 0) (200, 0, 0) (1/2) (0, 0) (by decide)
    rw [h.1 (by norm_num)]
    norm_num [clampAdd, satRound, round_eq]
    decide
  · have h := C1_single_detection_composite (fun _ => (0, 0, 0))
      (fun q => if q = (0, 0) then 1 else 0) (200, 0, 0) (1/2) (3, 3) (by decide)
    rw [h.2 (by norm_num)]

/-- C2 counterexample: with alpha = 3/10 and colors (2,2,2), sequential
compositing of two covering detections over a zero frame yields 2 per
channel, while the formula clamp(frame + alpha*C1 + alpha*C2, 0, 255) of
the claim yields 1: the per-step uint8 rounding of cv2.addWeighted makes
the claimed single-clamp equality fail. -/
theorem C2_counterexample :
    compositeOne (compositeOne (fun _ => (0, 0, 0)) (fun _ => 1) (2, 2, 2) (3/10))
      (fun _ => 1) (2, 2, 2) (3/10) (0, 0) = (2, 2, 2) ∧
    clampAdd2 (0, 0, 0) (3/10) (2, 2, 2) (2, 2, 2) = (1, 1, 1) ∧
    ((2, 2, 2) : Pix) ≠ (1, 1, 1) := by
  refine ⟨?_, ?_, by decide⟩
  · rw [compositeOne_covered _ _ _ _ _ (by norm_num),
      compositeOne_covered _ _ _ _ _ (by norm_num)]
    norm_num [clampAdd, satRound, round_eq]
    decide
  · norm_num [clampAdd2, satRound, round_eq]

/-- C2 (amended): compositing two detections whose thresholded masks both
cover pixel p, in sequence order, applies the saturating composite
stepwise; whenever the per-channel contributions alpha*C1 and alpha*C2 are
whole numbers (so no intermediate rounding occurs), the result equals
clamp(frame[p] + alpha*C1 + alpha*C2, 0, 255): additive with saturation,
summed over the overlapping detections, not a convex alpha blend. -/
theorem C2_additive_blend (frame : Img) (rm1 rm2 : MaskGrid) (c1 c2 : Pix) (α : ℚ)
    (a1 a2 : Pix) (p : ℤ × ℤ)
    (hcov1 : 1/2 < rm1 p) (hcov2 : 1/2 < rm2 p)
    (hA1 : α * c1.1 = (a1.1 : ℚ) ∧ α * c1.2.1 = (a1.2.1 : ℚ) ∧ α * c1.2.2 = (a1.2.2 : ℚ))
    (hA2 : α * c2.1 = (a2.1 : ℚ) ∧ α * c2.2.1 = (a2.2.1 : ℚ) ∧ α * c2.2.2 = (a2.2.2 : ℚ)) :
    compositeOne (compositeOne frame rm1 c1 α) rm2 c2 α p =
      clampAdd2 (frame p) α c1 c2 := by
  obtain ⟨e11, e12, e13⟩ := hA1
  obtain ⟨e21, e22, e23⟩ := hA2
  rw [compositeOne_covered _ _ _ _ _ hcov2, compositeOne_covered _ _ _ _ _ hcov1]
  simp only [clampAdd, clampAdd2, e11, e12, e13]
  rw [satRound_nat_add, satRound_nat_add, satRound_nat_add]
  have goal : ∀ f a b : ℕ, ∀ x : ℚ, x = (b : ℚ) →
      satRound ((min 255 (f + a) : ℕ) + x) = satRound ((f : ℚ) + a + x) := by
    intro f a b x hx
    rw [hx, satRound_nat_add]
    have e : (f : ℚ) + (a : ℚ) + (b : ℚ) = ((f + a + b : ℕ) : ℚ) := by push_cast; ring
    rw [e, satRound_natCast']
    omega
  refine Prod.ext ?_ (Prod.ext ?_ ?_)
  · exact goal _ _ _ _ e21
  · exact goal _ _ _ _ e22
  · exact goal _ _ _ _ e23

/-- C2 witness: alpha = 1/2 and colors (200,0,0) give integral
contributions of 100 per covered channel; two overlapping detections over
a zero frame produce (200,0,0). -/
theorem C2_additive_blend_witness :
    compositeOne (compositeOne (fun _ => (0, 0, 0)) (fun _ => 1) (200, 0, 0) (1/2))
      (fun _ => 1) (200, 0, 0) (1/2) (0, 0) = (200, 0, 0) := by
  rw [C2_additive_blend (fun _ => (0, 0, 0)) (fun _ => 1) (fun _ => 1) (200, 0, 0)
    (200, 0, 0) (1/2) (100, 0, 0) (100, 0, 0) (0, 0) (by norm_num) (by norm_num)
    (by norm_num) (by norm_num)]
  norm_num [clampAdd2, satRound, round_eq]
  decide

/-- Python format spec ".2f" on a real value: round to hundredths and print
with exactly two decimal digits. The tie behaviour of binary floating
formatting is abstracted as round-half-up; no theorem depends on a tie. -/
def fmt2 (q : ℚ) : String :=
  let n : ℤ := round (100 * q)
  let frac : ℕ := (n % 100).toNat
  toString (n / 100) ++ "." ++ (if frac < 10 then "0" ++ toString frac else toString frac)

/-- Source line 99: label = f-string of class_name, a space, and the
confidence formatted to two decimals. The show-labels and show-conf flags
are not consulted anywhere in custom_visualization. -/
def customLabel (class_name : String) (confidence : ℚ) : String :=
  class_name ++ " " ++ fmt2 confidence

/-- argparse action store_true with default True (source lines 34-37): the
stored value is True when the flag is passed and the default True when it
is not. -/
def storeTrueDefaultTrue (present : Bool) : Bool :=
  if present then true else true

/-- The label text the claim describes, as a function of the two display
flags: both halves when both flags are on, only the enabled half
otherwise, with no trailing separator. -/
def specLabel (showLabels showConf : Bool) (class_name : String) (confidence : ℚ) : String :=
  (if showLabels then class_name else "") ++
  (if showLabels && showConf then " " else "") ++
  (if showConf then fmt2 confidence else "")

/-- C3 counterexample: with the show-confidence flag disabled the claim
predicts the text "person" for class person at confidence 0.9, but the
custom pipeline always renders "person 0.90": the flags are never
consulted by custom_visualization. -/
theorem C3_counterexample :
    customLabel "person" (9/10) = "person 0.90" ∧
    specLabel true false "person" (9/10) = "person" ∧
    customLabel "person" (9/10) ≠ specLabel true false "person" (9/10) := by
  refine ⟨?_, by rfl, ?_⟩
  · show "person" ++ " " ++ fmt2 (9/10) = "person 0.90"
    norm_num [fmt2, round_eq]
    rfl
  · intro h
    rw [show specLabel true false "person" (9/10) = "person" from rfl] at h
    have e : customLabel "person" (9/10) = "person 0.90" := by
      show "person" ++ " " ++ fmt2 (9/10) = "person 0.90"
      norm_num [fmt2, round_eq]
      rfl
    rw [e] at h
    exact absurd h (by decide)

/-- C3 (amended): the custom pipeline renders the label
"<className> <confidence formatted to 2 decimals>" unconditionally; the
show-labels and show-confidence flags are not consulted by it, and with
the given argument parser (store_true with default True) both flags are
always enabled, so the rendered text agrees with the claim only in the
both-enabled case. -/
theorem C3_label_text (p1 p2 : Bool) (class_name : String) (confidence : ℚ) :
    storeTrueDefaultTrue p1 = true ∧ storeTrueDefaultTrue p2 = true ∧
    customLabel class_name confidence = specLabel true true class_name confidence := by
  refine ⟨by cases p1 <;> rfl, by cases p2 <;> rfl, ?_⟩
  simp [customLabel, specLabel]

/-- State of the FPS estimator of the main loop (source lines 163-166):
frame_count, start_time and fps_display. -/
structure FPSState where
  count : ℕ
  windowStart : ℚ
  displayed : ℚ
deriving DecidableEq

/-- Source lines 164-166: frame_count = 0, start_time = now, fps_display = 0. -/
def fpsInit (t0 : ℚ) : FPSState := ⟨0, t0, 0⟩

/-- Source lines 180-185, one iteration: increment frame_count; if the
elapsed time reached 1.0, set fps_display to frame_count divided by the
elapsed time and reset frame_count and start_time. -/
def tick (s : FPSState) (now : ℚ) : FPSState :=
  let c := s.count + 1
  let elapsed := now - s.windowStart
  if 1 ≤ elapsed then ⟨0, now, (c : ℚ) / elapsed⟩
  else ⟨c, s.windowStart, s.displayed⟩

/-- Feeding a list of timestamps to the estimator in order. -/
def runTicks (s : FPSState) (ts : List ℚ) : FPSState := List.foldl tick s ts

/-- True when no tick of the list crosses a window boundary, starting from
state s. -/
def noBoundary (s : FPSState) : List ℚ → Bool
  | [] => true
  | t :: ts => decide (t - s.windowStart < 1) && noBoundary (tick s t) ts

lemma runTicks_noBoundary (ts : List ℚ) : ∀ s : FPSState, noBoundary s ts = true →
    (runTicks s ts).displayed = s.displayed ∧
    (runTicks s ts).windowStart = s.windowStart := by
  induction ts with
  | nil => intro s _; exact ⟨rfl, rfl⟩
  | cons t ts ih =>
    intro s h
    simp only [noBoundary, Bool.and_eq_true, decide_eq_true_eq] at h
    obtain ⟨h1, h2⟩ := h
    have step : tick s t = ⟨s.count + 1, s.windowStart, s.displayed⟩ := by
      unfold tick
      rw [if_neg (by linarith)]
    have := ih (tick s t) h2
    simp only [runTicks, List.foldl_cons] at *
    rw [step] at this ⊢
    exact this

/-- C4: tick increments count and, exactly when now - windowStart has
reached 1.0, sets displayed to count divided by the elapsed time (with
count already incremented, as in the source) and resets count to 0 and
windowStart to now; between window boundaries displayed and windowStart
keep their previous values, the initial displayed value is 0, and
displayed stays 0 along any run of ticks that never reaches a boundary
from the initial state. -/
theorem C4_fps_estimator (t0 : ℚ) (s : FPSState) (now : ℚ) :
    (fpsInit t0).displayed = 0 ∧
    (1 ≤ now - s.windowStart →
      tick s now = ⟨0, now, ((s.count + 1 : ℕ) : ℚ) / (now - s.windowStart)⟩) ∧
    (¬ 1 ≤ now - s.windowStart →
      tick s now = ⟨s.count + 1, s.windowStart, s.displayed⟩) ∧
    (∀ ts : List ℚ, noBoundary (fpsInit t0) ts = true →
      (runTicks (fpsInit t0) ts).displayed = 0) := by
  refine ⟨rfl, ?_, ?_, ?_⟩
  · intro h
    unfold tick
    rw [if_pos h]
  · intro h
    unfold tick
    rw [if_neg h]
  · intro ts h
    exact (runTicks_noBoundary ts (fpsInit t0) h).1

/-- C4 witness: from a fresh estimator at time 0, a tick at time 2 crosses
the boundary and displays 1/2; a tick at time 1/2 does not, and displayed
stays 0 along the quiet run. -/
theorem C4_fps_estimator_witness :
    tick (fpsInit 0) 2 = ⟨0, 2, 1/2⟩ ∧
    tick (fpsInit 0) (1/2) = ⟨1, 0, 0⟩ ∧
    (runTicks (fpsInit 0) [1/4, 1/2]).displayed = 0 := by
  have h := C4_fps_estimator 0 (fpsInit 0) 2
  have h2 := C4_fps_estimator 0 (fpsInit 0) (1/2)
  refine ⟨?_, ?_, ?_⟩
  · rw [h.2.1 (by norm_num [fpsInit])]
    norm_num [fpsInit]
  · rw [h2.2.2.1 (by norm_num [fpsInit])]
    rfl
  · exact h.2.2.2 [1/4, 1/2] (by norm_num [noBoundary, fpsInit, tick])

/-- Observable actions of the main loop (source lines 171-234). -/
inductive Ev
  | detect
  | annotate
  | display
  | write
  | releaseSource
  | releaseSink
  | destroyWindows
deriving DecidableEq

/-- Source lines 171-228, the while body: read a frame (a failed read
breaks out of the loop), run inference, annotate, display, write to the
sink when saving, and poll the quit key. The source is modelled as the
list of frames it will yield before end-of-stream; quit i tells whether
the q key is seen after processing frame i. -/
def loopBody (save : Bool) (quit : ℕ → Bool) : List ℕ → ℕ → List Ev
  | [], _ => []
  | _f :: rest, i =>
    [Ev.detect, Ev.annotate, Ev.display] ++ (if save then [Ev.write] else []) ++
    (if quit i then [] else loopBody save quit rest (i + 1))

/-- Source lines 171-234: run the loop, then release the capture source,
release the sink when it was opened (save enabled), and destroy the
windows, in that order. -/
def runLoop (save : Bool) (quit : ℕ → Bool) (frames : List ℕ) : List Ev :=
  loopBody save quit frames 0 ++ [Ev.releaseSource] ++
  (if save then [Ev.releaseSink] else []) ++ [Ev.destroyWindows]

lemma loopBody_count_release (save : Bool) (quit : ℕ → Bool) (frames : List ℕ) :
    ∀ i, (loopBody save quit frames i).count Ev.releaseSource = 0 ∧
      (loopBody save quit frames i).count Ev.releaseSink = 0 := by
  induction frames with
  | nil => intro i; exact ⟨rfl, rfl⟩
  | cons f rest ih =>
    intro i
    obtain ⟨ih1, ih2⟩ := ih (i + 1)
    constructor <;>
      simp [loopBody, List.count_append, apply_ite (List.count Ev.releaseSource),
        apply_ite (List.count Ev.releaseSink), ih1, ih2]

lemma loopBody_count_noquit (save : Bool) (quit : ℕ → Bool) (hq : ∀ i, quit i = false)
    (frames : List ℕ) : ∀ i,
    (loopBody save quit frames i).count Ev.detect = frames.length ∧
    (loopBody save quit frames i).count Ev.annotate = frames.length := by
  induction frames with
  | nil => intro i; exact ⟨rfl, rfl⟩
  | cons f rest ih =>
    intro i
    obtain ⟨ih1, ih2⟩ := ih (i + 1)
    constructor <;>
      simp [loopBody, hq i, List.count_append, apply_ite (List.count Ev.detect),
        apply_ite (List.count Ev.annotate), ih1, ih2, Nat.add_comm]

/-- C5: with a source yielding exactly 3 frames then end-of-stream and no
quit request, the loop runs the detector and the annotator exactly 3 times
(a failed read only breaks the loop); and on every exit path (any frame
list and any quit schedule) the trace ends with exactly one release of the
source followed, exactly when saving is enabled, by one release of the
sink, neither released anywhere else. -/
theorem C5_loop_termination (save : Bool) (quit : ℕ → Bool) (frames : List ℕ) :
    (frames.length = 3 → (∀ i, quit i = false) →
      (runLoop save quit frames).count Ev.detect = 3 ∧
      (runLoop save quit frames).count Ev.annotate = 3) ∧
    ((runLoop save quit frames).count Ev.releaseSource = 1 ∧
     (runLoop save quit frames).count Ev.releaseSink = (if save then 1 else 0) ∧
     (∃ pre : List Ev, pre.count Ev.releaseSource = 0 ∧ pre.count Ev.releaseSink = 0 ∧
       runLoop save quit frames = pre ++ [Ev.releaseSource] ++
         (if save then [Ev.releaseSink] else []) ++ [Ev.destroyWindows])) := by
  obtain ⟨hb1, hb2⟩ := loopBody_count_release save quit frames 0
  constructor
  · intro h3 hq
    obtain ⟨hd, ha⟩ := loopBody_count_noquit save quit hq frames 0
    constructor
    · simp only [runLoop, List.count_append, hd, h3]
      rcases hs : save <;> simp [hs, List.count_cons, List.count_nil]
    · simp only [runLoop, List.count_append, ha, h3]
      rcases hs : save <;> simp [hs, List.count_cons, List.count_nil]
  · refine ⟨?_, ?_, loopBody save quit frames 0, hb1, hb2, rfl⟩
    · simp only [runLoop, List.count_append, hb1]
      rcases hs : save <;> simp [hs, List.count_cons, List.count_nil]
    · simp only [runLoop, List.count_append, hb2]
      rcases hs : save <;> simp [hs, List.count_cons, List.count_nil]

/-- C5 witness: three frames, never quitting, saving enabled. -/
theorem C5_loop_termination_witness :
    (runLoop true (fun _ => false) [10, 11, 12]).count Ev.detect = 3 ∧
    (runLoop true (fun _ => false) [10, 11, 12]).count Ev.annotate = 3 ∧
    (runLoop true (fun _ => false) [10, 11, 12]).count Ev.releaseSource = 1 ∧
    (runLoop true (fun _ => false) [10, 11, 12]).count Ev.releaseSink = 1 := by
  have h := C5_loop_termination true (fun _ => false) [10, 11, 12]
  obtain ⟨hd, ha⟩ := h.1 (by rfl) (fun i => rfl)
  refine ⟨hd, ha, h.2.1, ?_⟩
  have := h.2.2.1
  simpa using this

/-- A pixel position lies inside the W x H frame. -/
def inBounds (W H : ℕ) (p : ℤ × ℤ) : Prop :=
  0 ≤ p.1 ∧ p.1 < (W : ℤ) ∧ 0 ≤ p.2 ∧ p.2 < (H : ℤ)

instance (W H : ℕ) (p : ℤ × ℤ) : Decidable (inBounds W H p) := by
  unfold inBounds; infer_instance

/-- A position lies inside the closed rectangle between two corners. -/
def inRect (x1 y1 x2 y2 : ℤ) (p : ℤ × ℤ) : Prop :=
  min x1 x2 ≤ p.1 ∧ p.1 ≤ max x1 x2 ∧ min y1 y2 ≤ p.2 ∧ p.2 ≤ max y1 y2

instance (x1 y1 x2 y2 : ℤ) (p : ℤ × ℤ) : Decidable (inRect x1 y1 x2 y2 p) := by
  unfold inRect; infer_instance

/-- cv2.rectangle with a negative thickness: fill the whole closed
rectangle between the corners with the color, clipped to the frame. -/
def rectFilled (W H : ℕ) (f : Img) (x1 y1 x2 y2 : ℤ) (c : Pix) : Img :=
  fun p => if inRect x1 y1 x2 y2 p ∧ inBounds W H p then c else f p

/-- cv2.rectangle with positive thickness t: color the band of width about
t around the rectangle border, clipped to the frame. The exact rasterised
band of OpenCV thick lines is abstracted; no theorem depends on its exact
extent. -/
def rectOutline (W H : ℕ) (f : Img) (x1 y1 x2 y2 : ℤ) (c : Pix) (t : ℤ) : Img :=
  fun p =>
    if (inRect (x1 - (t - 1)) (y1 - (t - 1)) (x2 + (t - 1)) (y2 + (t - 1)) p ∧
        ¬ inRect (x1 + 1) (y1 + 1) (x2 - 1) (y2 - 1) p) ∧ inBounds W H p
    then c else f p

/-- cv2.putText: paint the glyph pixels of the text white, clipped to the
frame. Which pixels the font rasteriser covers is external; it is passed
in as the cover predicate. -/
def putTextWhite (W H : ℕ) (f : Img) (cover : ℤ × ℤ → Bool) : Img :=
  fun p => if cover p ∧ inBounds W H p then (255, 255, 255) else f p

/-- NumPy integer indexing into a first axis of length len: a non-negative
index must be below len, a negative index wraps once from the end, and
anything else raises IndexError (None here). Source line 73 indexes the
color table this way. -/
def npGetRow {A : Type} (table : List A) (i : ℤ) : Option A :=
  if 0 ≤ i then (if i < (table.length : ℤ) then table.get? i.toNat else none)
  else (if 0 ≤ i + (table.length : ℤ) then table.get? (i + (table.length : ℤ)).toNat else none)

/-- Python dict lookup with consecutive integer keys 0..len-1, as the
names mapping of the model (source line 97): only an exact in-range key
succeeds, anything else raises KeyError (None here). -/
def dictGet {A : Type} (names : List A) (i : ℤ) : Option A :=
  if 0 ≤ i ∧ i < (names.length : ℤ) then names.get? i.toNat else none

/-- Python int() on a real value: truncation toward zero (source line 93
applies it to the box coordinates). -/
def pyInt (q : ℚ) : ℤ := if 0 ≤ q then ⌊q⌋ else ⌈q⌉

/-- One row of results[0].boxes.data: corner coordinates and confidence
(the class column is carried separately, as in the source). -/
structure BoxRow where
  x1 : ℚ
  y1 : ℚ
  x2 : ℚ
  y2 : ℚ
  conf : ℚ

/-- The fields of results[0] that custom_visualization reads: the optional
masks tensor, the box rows, the class ids (cast to int) and the class-name
table. -/
structure Results where
  masksOpt : Option (List MaskGrid)
  boxes : List BoxRow
  classIds : List ℤ
  names : List String

/-- External collaborators of the pipeline, passed in explicitly:
frame geometry, cv2.resize to the frame size, cv2.getTextSize at the fixed
font, the glyph coverage of cv2.putText (text and origin to covered
pixels), and the NumPy global generator (seeding and one uniform draw in
[0,255) with the next state). -/
structure Ext where
  W : ℕ
  H : ℕ
  rsz : MaskGrid → MaskGrid
  textSize : String → ℕ × ℕ
  glyphs : String → ℤ × ℤ → ℤ × ℤ → Bool
  npSeedState : ℕ → ℕ
  npNext : ℕ → ℕ × ℕ

/-- Source line 68: np.random.randint(0, 255, size=(n, 3)) drawn row by
row from the generator state (high bound exclusive). -/
def drawColors (ext : Ext) : ℕ → ℕ → List Pix × ℕ
  | 0, g => ([], g)
  | n + 1, g =>
    let (r, g1) := ext.npNext g
    let (gr, g2) := ext.npNext g1
    let (b, g3) := ext.npNext g2
    let (rest, g4) := drawColors ext n g3
    ((r, gr, b) :: rest, g4)

/-- Source lines 67-68 as one function: the color table drawn after
seeding the global generator with the given seed. The ambient generator
state g at entry is the first argument; np.random.seed replaces it, so the
result cannot depend on it. -/
def colorTable (ext : Ext) (g : ℕ) (seed n : ℕ) : List Pix :=
  (drawColors ext n (ext.npSeedState seed)).1

/-- The color assigned to one class id: row classId of the table drawn
from the seed, via NumPy indexing. -/
def colorFor (ext : Ext) (g : ℕ) (seed n : ℕ) (classId : ℤ) : Option Pix :=
  npGetRow (colorTable ext g seed n) classId

/-- Source lines 71-123, the body of the per-detection loop: look the
class color up, resize and threshold the mask, blend the colored overlay,
draw the bounding box, build the label, draw its filled background and
the white text. A failed lookup (IndexError / KeyError) aborts. -/
def stepDet (ext : Ext) (names : List String) (colors : List Pix) (α : ℚ)
    (frame : Img) (d : MaskGrid × BoxRow × ℤ) : Option Img := do
  let (mask, box, class_id) := d
  let color ← npGetRow colors class_id
  let f1 := compositeOne frame (ext.rsz mask) color α
  let x1 := pyInt box.x1
  let y1 := pyInt box.y1
  let x2 := pyInt box.x2
  let y2 := pyInt box.y2
  let f2 := rectOutline ext.W ext.H f1 x1 y1 x2 y2 color 2
  let class_name ← dictGet names class_id
  let label := customLabel class_name box.conf
  let (text_w, text_h) := ext.textSize label
  let f3 := rectFilled ext.W ext.H f2 x1 (y1 - (text_h : ℤ) - 8) (x1 + (text_w : ℤ) + 8) y1 color
  let f4 := putTextWhite ext.W ext.H f3 (ext.glyphs label (x1 + 4, y1 - 4))
  return f4

/-- Source lines 45-125: custom_visualization. The frame is copied (value
semantics here); when results[0].masks is None nothing at all is drawn;
otherwise the color table is drawn after reseeding the global generator
with 42 and the detections are processed in sequence order. -/
def custom_visualization (ext : Ext) (g : ℕ) (frame : Img) (results : Results)
    (mask_alpha : ℚ) : Option Img :=
  match results.masksOpt with
  | none => some frame
  | some masks =>
    let colors := colorTable ext g 42 results.names.length
    (masks.zip (results.boxes.zip results.classIds)).foldlM
      (stepDet ext results.names colors mask_alpha) frame

/-- C6: colorFor is a pure, deterministic function of seed and class
count: because custom_visualization reseeds the global generator (line 67)
before drawing, the resulting color table entry, and with it the whole
visualization, is independent of the ambient generator state, hence of run
order; repeated evaluations with identical arguments agree. -/
theorem C6_colorFor_deterministic (ext : Ext) (g g' : ℕ) (seed n : ℕ) (classId : ℤ)
    (frame : Img) (results : Results) (mask_alpha : ℚ) :
    colorFor ext g seed n classId = colorFor ext g' seed n classId ∧
    custom_visualization ext g frame results mask_alpha =
      custom_visualization ext g' frame results mask_alpha := by
  constructor
  · rfl
  · unfold custom_visualization
    cases results.masksOpt <;> rfl

/-- C7: compositing an empty detection sequence (a masks tensor with zero
rows) leaves the frame byte-for-byte unchanged, for every frame and every
alpha. -/
theorem C7_empty_detections (ext : Ext) (g : ℕ) (frame : Img) (boxes : List BoxRow)
    (classIds : List ℤ) (names : List String) (mask_alpha : ℚ) :
    custom_visualization ext g frame ⟨some [], boxes, classIds, names⟩ mask_alpha =
      some frame := rfl

/-- C8 counterexample: classId -1 is outside the valid range of a 3-class
table, yet the NumPy lookup does not fail: it silently wraps to the last
row (7,8,9). -/
theorem C8_counterexample :
    npGetRow [((1, 2, 3) : Pix), (4, 5, 6), (7, 8, 9)] (-1) = some (7, 8, 9) := by decide

/-- C8 (amended): the color lookup raises IndexError (fails loudly) for
classId at or above numClasses and for classId below -numClasses, but a
negative classId with -numClasses <= classId < 0 silently wraps to entry
classId + numClasses instead of failing. -/
theorem C8_lookup_bounds (table : List Pix) (i : ℤ) :
    (((table.length : ℤ) ≤ i ∨ i + (table.length : ℤ) < 0) → npGetRow table i = none) ∧
    (i < 0 → 0 ≤ i + (table.length : ℤ) →
      npGetRow table i = table.get? (i + (table.length : ℤ)).toNat ∧
      (npGetRow table i).isSome = true) := by
  constructor
  · intro h
    unfold npGetRow
    rcases h with h | h
    · rw [if_pos (by omega), if_neg (by omega)]
    · rw [if_neg (by omega), if_neg (by omega)]
  · intro h1 h2
    have e : npGetRow table i = table.get? (i + (table.length : ℤ)).toNat := by
      unfold npGetRow
      rw [if_neg (by omega), if_pos h2]
    refine ⟨e, ?_⟩
    rw [e]
    have hlt : (i + (table.length : ℤ)).toNat < table.length := by omega
    rw [List.get?_eq_get hlt]
    rfl

/-- C8 witness: index 5 in a 1-entry table fails loudly; index -1 wraps. -/
theorem C8_lookup_bounds_witness :
    npGetRow [((1, 2, 3) : Pix)] 5 = none ∧
    npGetRow [((1, 2, 3) : Pix)] (-1) = [((1, 2, 3) : Pix)].get? 0 := by
  have ha := (C8_lookup_bounds [((1, 2, 3) : Pix)] 5).1 (by norm_num)
  have hb := (C8_lookup_bounds [((1, 2, 3) : Pix)] (-1)).2 (by norm_num) (by norm_num)
  exact ⟨ha, hb.1⟩

/-- A concrete instantiation of the external collaborators for concrete
evaluations: a 100 x 100 frame, resize as identity, a constant text
footprint of 20 x 10, a font rasteriser covering no pixel, and a trivial
generator. -/
def extC : Ext :=
  ⟨100, 100, fun m => m, fun _ => (20, 10), fun _ _ _ => false, fun s => s, fun g => (0, g)⟩

/-- C9 counterexample: a detection whose mask is 0 everywhere (nothing
survives the 0.5 threshold after resizing) is not a no-op for the frame:
processing it still draws the bounding box and the label, and pixel
(10,10) of a uniform gray frame turns into the class color (200,0,0). -/
theorem C9_counterexample :
    Option.map (fun h : Img => h (10, 10))
      (stepDet extC ["person"] [(200, 0, 0)] (3/10) (fun _ => (7, 7, 7))
        (fun _ => 0, ⟨10, 10, 20, 20, 9/10⟩, 0)) = some (200, 0, 0) ∧
    ((7, 7, 7) : Pix) ≠ (200, 0, 0) := by
  constructor
  · rfl
  · decide

/-- C9 (amended): for a detection whose mask, after resizing to the frame
size, has no value above the 0.5 threshold, the mask-compositing step of
processing that detection is a no-op — the blend leaves every pixel of the
frame unchanged — while the bounding box and label of the detection are
still drawn. -/
theorem C9_below_threshold_composite_noop (ext : Ext) (m : MaskGrid) (c : Pix) (α : ℚ)
    (frame : Img) (p : ℤ × ℤ)
    (hm : ∀ q, ¬ 1/2 < ext.rsz m q) (hwf : pixLe255 (frame p)) :
    compositeOne frame (ext.rsz m) c α p = frame p :=
  compositeOne_uncovered frame (ext.rsz m) c α p (hm p) hwf

/-- C9 witness: the all-zero mask under the identity resize leaves a gray
pixel untouched by the blend. -/
theorem C9_below_threshold_composite_noop_witness :
    compositeOne (fun _ => (7, 7, 7)) (extC.rsz (fun _ => 0)) (200, 0, 0) (3/10) (0, 0) =
      (7, 7, 7) :=
  C9_below_threshold_composite_noop extC (fun _ => 0) (200, 0, 0) (3/10)
    (fun _ => (7, 7, 7)) (0, 0) (fun q => by norm_num [extC]) (by decide)

/-- C10: when results[0].masks is None, custom_visualization draws nothing
at all — no mask overlay, no boxes, no labels, whatever boxes the result
carries — and returns the (copied) input frame unchanged. -/
theorem C10_no_masks_draws_nothing (ext : Ext) (g : ℕ) (frame : Img) (boxes : List BoxRow)
    (classIds : List ℤ) (names : List String) (mask_alpha : ℚ) :
    custom_visualization ext g frame ⟨none, boxes, classIds, names⟩ mask_alpha =
      some frame := rfl

end InstanceSeg
